import Mathlib

/-!
# Grapevine server core — shallow embedding

A shallow embedding of the Grapevine server's route handlers
(`routes/user.rs`, `routes/proof.rs`) over an explicit database state,
together with the per-user nonce authentication guard and the Mongo-side
record operations; the latter two live outside the provided source tree and
are modelled from the specification where so marked.  External
cryptographic capabilities (point/signature decompression, signature
verification, the Nova folding-proof verifier) are opaque in the source and
enter here as explicit function parameters.

Machine integers and field elements are modelled as `Nat`; byte strings as
`List Nat`; fallible operations as `Option`/`Except`; a Rust `unwrap` on a
missing value or an out-of-bounds index becomes an explicit `crashed`
outcome.
-/

namespace Grapevine

/-! ## Data model (§3; grapevine_common models) -/

/-- A user record: `models::user::User` — id, username, compressed public
key, nonce counter, relationship-id and degree-proof-id back-reference
lists. -/
structure User where
  id : Nat
  username : String
  pubkey : List Nat
  nonce : Nat
  relationships : List Nat
  degree_proofs : List Nat
deriving Repr, DecidableEq

/-- A relationship edge: `models::relationship::Relationship` — sender,
recipient, ephemeral public key and encrypted auth secret. -/
structure Relationship where
  id : Nat
  sender : Nat
  recipient : Nat
  ephemeral_key : List Nat
  ciphertext : List Nat
deriving Repr, DecidableEq

/-- A degree proof: `models::proof::DegreeProof` — phrase hash, auth hash,
owner, degree, compressed proof bytes, optional preceding proof id and the
list of proceeding (child) proof ids. -/
structure DegreeProof where
  id : Nat
  phrase_hash : Nat
  auth_hash : Nat
  user : Nat
  degree : Nat
  proof : List Nat
  preceding : Option Nat
  proceeding : List Nat
deriving Repr, DecidableEq

/-- The server's durable state: the three record collections plus a fresh-id
counter standing in for ObjectId generation. -/
structure DB where
  users : List User
  proofs : List DegreeProof
  relationships : List Relationship
  nextId : Nat
deriving Repr, DecidableEq

/-! ## External capabilities (§4.5, §6) -/

/-- The opaque cryptographic collaborators used by `create_user` /
`get_nonce`: babyjubjub point and signature decompression (fallible — the
source unwraps their results), EdDSA verification, and the canonical
field-element encoding of a username (`convert_username_to_fr`). -/
structure Crypto where
  decompress_point : List Nat → Option Nat
  decompress_signature : List Nat → Option Nat
  verify : Nat → Nat → Nat → Bool
  convert_username_to_fr : String → Nat

/-- The opaque folding-proof collaborator: `decompress_proof` and
`verify_nova_proof(proof, params, step_count)`, the latter returning the
public output vector on success. -/
structure Verifier where
  decompress_proof : List Nat → List Nat
  verify_nova_proof : List Nat → Nat → Option (List Nat)

/-! ## Store operations (mongo.rs is not under src/) -/

/-- Modelled from the spec: `GrapevineDB::get_user` lives in mongo.rs,
absent from src/; §4.1 `lookup` — find a user record by username. -/
def get_user (db : DB) (username : String) : Option User :=
  db.users.find? (fun u => u.username == username)

/-- Modelled from the spec: proof lookup by id lives in mongo.rs, absent
from src/; §6 `Store` — point lookup of a DegreeProof by its opaque id. -/
def find_proof (db : DB) (pid : Nat) : Option DegreeProof :=
  db.proofs.find? (fun p => p.id == pid)

/-- Modelled from the spec: `GrapevineDB::check_creation_params` lives in
mongo.rs, absent from src/; §4.1 requires detecting whether the username or
the public key is already registered, as a pair of booleans. -/
def check_creation_params (db : DB) (username : String) (pubkey : List Nat) :
    Bool × Bool :=
  (db.users.any (fun u => u.username == username),
   db.users.any (fun u => u.pubkey == pubkey))

/-- Modelled from the spec: `GrapevineDB::create_user` lives in mongo.rs,
absent from src/; §4.1 — "one durable record created". -/
def db_create_user (db : DB) (u : User) : DB :=
  { db with
    users := db.users ++ [{ u with id := db.nextId }],
    nextId := db.nextId + 1 }

/-- Modelled from the spec: the insert half of `GrapevineDB::add_proof`
(mongo.rs, absent from src/) — assign a fresh id, append that id to the
preceding proof's proceeding list when a preceding id is given, and record
the id on the owner identity (§3, §4.4). -/
def insert_proof (db : DB) (userId : Nat) (doc : DegreeProof) : DB :=
  let pid := db.nextId
  { db with
    proofs :=
      (db.proofs.map (fun p =>
        match doc.preceding with
        | some prev =>
            if p.id == prev then { p with proceeding := p.proceeding ++ [pid] }
            else p
        | none => p)) ++ [{ doc with id := pid }],
    users := db.users.map (fun u =>
      if u.id == userId then { u with degree_proofs := u.degree_proofs ++ [pid] }
      else u),
    nextId := db.nextId + 1 }

/-- Modelled from the spec: `GrapevineDB::add_proof` lives in mongo.rs,
absent from src/; §4.4 — persist the DegreeProof, append its id to
`preceding_id`'s `proceeding_ids`, and fail when a given preceding id does
not resolve to a stored proof. -/
def add_proof (db : DB) (userId : Nat) (doc : DegreeProof) : Option DB :=
  match doc.preceding with
  | some prev =>
      if (find_proof db prev).isSome then some (insert_proof db userId doc)
      else none
  | none => some (insert_proof db userId doc)

/-- Modelled from the spec: `GrapevineDB::add_relationship` lives in
mongo.rs, absent from src/; §4.3 — create the edge and append its id to
both identities' relationship lists. -/
def db_add_relationship (db : DB) (doc : Relationship) : DB :=
  let rid := db.nextId
  { db with
    relationships := db.relationships ++ [{ doc with id := rid }],
    users := db.users.map (fun u =>
      if u.id == doc.sender || u.id == doc.recipient then
        { u with relationships := u.relationships ++ [rid] }
      else u),
    nextId := db.nextId + 1 }

/-- Modelled from the spec: `GrapevineDB::get_proof_and_data` lives in
mongo.rs, absent from src/; §4.4 `proof_bundle` — succeed exactly when the
proof and the RelationshipEdge from the proof's owner to the requesting
user both exist, returning the degree and compressed proof (the bundle's
cryptographic payload is opaque here). -/
def get_proof_and_data (db : DB) (username : String) (oid : Nat) :
    Option (Nat × List Nat) :=
  match find_proof db oid, get_user db username with
  | some p, some u =>
      if db.relationships.any (fun r => r.sender == p.user && r.recipient == u.id)
      then some (p.degree, p.proof)
      else none
  | _, _ => none

/-! ## Authentication guard (guards.rs is not under src/) -/

/-- An authorization header after parsing: either it lacked the delimiter,
or it encodes a username and a supplied nonce. -/
inductive Credential where
  | malformed
  | wellFormed (username : String) (nonce : Nat)
deriving Repr, DecidableEq

/-- The guard's failure outcomes, with the nonce mismatch disclosing the
expected and received values. -/
inductive AuthError where
  | malformedCredential
  | identityNotFound (username : String)
  | nonceMismatch (expected received : Nat)
deriving Repr, DecidableEq

/-- Modelled from the spec: the `NonceGuard` in guards.rs is absent from
src/. §4.2 — malformed encoding fails; unknown username fails; a supplied
nonce different from the stored nonce fails with
`NonceMismatch(expected = stored, received = supplied)` and no state
change; otherwise succeed and atomically advance the stored nonce by one.
Consistent with the main.rs nonce-guard tests. -/
def authenticate (db : DB) (cred : Credential) : Except AuthError User × DB :=
  match cred with
  | .malformed => (.error .malformedCredential, db)
  | .wellFormed username supplied =>
      match get_user db username with
      | none => (.error (.identityNotFound username), db)
      | some u =>
          if supplied = u.nonce then
            (.ok u,
             { db with
               users := db.users.map (fun w =>
                 if w.username == username then { w with nonce := w.nonce + 1 }
                 else w) })
          else (.error (.nonceMismatch u.nonce supplied), db)

/-! ## Request and response types (grapevine_common::http) -/

/-- The constant `MAX_USERNAME_CHARS` from grapevine_common: 30. -/
def MAX_USERNAME_CHARS : Nat := 30

/-- Rust `str::is_ascii`: every character is in the 7-bit range. -/
def is_ascii (s : String) : Bool := s.data.all (fun c => c.toNat ≤ 127)

/-- The request type `CreateUserRequest`: username, compressed pubkey,
compressed signature over the username. -/
structure CreateUserRequest where
  username : String
  pubkey : List Nat
  signature_bytes : List Nat
deriving Repr, DecidableEq

/-- The request type `NewPhraseRequest`: username and compressed fold
proof. -/
structure NewPhraseRequest where
  username : String
  proof : List Nat
deriving Repr, DecidableEq

/-- A stringified ObjectId as received on the wire: either it parses to an
id or it does not (`ObjectId::from_str` is fallible). -/
inductive OidString where
  | valid (oid : Nat)
  | invalid
deriving Repr, DecidableEq

/-- The fallible parse `ObjectId::from_str`. -/
def object_id_from_str : OidString → Option Nat
  | .valid oid => some oid
  | .invalid => none

/-- The request type `DegreeProofRequest`: username, compressed fold proof,
stringified OID of the previous proof, and the declared separation
degree. -/
structure DegreeProofRequest where
  username : String
  proof : List Nat
  previous : OidString
  degree : Nat
deriving Repr, DecidableEq

/-- The request type `NewRelationshipRequest`: recipient username (the
source's `to` field — renamed, `to` being reserved here), ephemeral
pubkey, encrypted auth secret. -/
structure NewRelationshipRequest where
  to_user : String
  ephemeral_key : List Nat
  ciphertext : List Nat
deriving Repr, DecidableEq

/-- The error type `GrapevineServerError`, the variants the embedded routes
use. -/
inductive GrapevineServerError where
  | usernameTooLong (username : String)
  | usernameNotAscii (username : String)
  | signatureErr (msg : String)
  | userExists (username : String)
  | usernameExists (username : String)
  | pubkeyExists (pubkey : List Nat)
  | relationshipSenderIsTarget
  | mongoError (msg : String)
deriving Repr, DecidableEq

/-- A route's observable outcome: the `GrapevineResponse`/`Status` values
the handlers return, plus `crashed` for a Rust panic (`unwrap` on a missing
value or an out-of-bounds index). -/
inductive Response where
  | created (msg : String)
  | badRequest (e : GrapevineServerError)
  -- the proof routes return a bare `Status::BadRequest` (400) on fold-proof
  -- verification failure; `proofInvalid` is that plain 400
  | proofInvalid
  | conflict (e : GrapevineServerError)
  | notFound (msg : String)
  | unauthorized (e : AuthError)
  | internalError
  | notImplemented
  | crashed
deriving Repr, DecidableEq

/-! ## Route handlers (routes/user.rs, routes/proof.rs) -/

/-- Route `create_user` (user.rs:37-133): length check, ASCII check, signature
verification over the canonical field encoding of the username (with
`unwrap` on both decompressions — `crashed` when either fails), the
three-way conflict dispatch on `check_creation_params`, then creation of an
identity with nonce 0 and empty back-reference lists. -/
def create_user (crypto : Crypto) (db : DB) (request : CreateUserRequest) :
    Response × DB :=
  if request.username.utf8ByteSize > MAX_USERNAME_CHARS then
    (.badRequest (.usernameTooLong request.username), db)
  else if !(is_ascii request.username) then
    (.badRequest (.usernameNotAscii request.username), db)
  else
    let message := crypto.convert_username_to_fr request.username
    match crypto.decompress_point request.pubkey with
    | none => (.crashed, db)
    | some pubkey_decompressed =>
        match crypto.decompress_signature request.signature_bytes with
        | none => (.crashed, db)
        | some signature_decompressed =>
            if crypto.verify pubkey_decompressed signature_decompressed message then
              match check_creation_params db request.username request.pubkey with
              | (true, true) => (.conflict (.userExists request.username), db)
              | (true, false) => (.conflict (.usernameExists request.username), db)
              | (false, true) => (.conflict (.pubkeyExists request.pubkey), db)
              | (false, false) =>
                  let user : User :=
                    { id := 0, nonce := 0, username := request.username,
                      pubkey := request.pubkey, relationships := [],
                      degree_proofs := [] }
                  (.created "User succefully created", db_create_user db user)
            else
              (.badRequest (.signatureErr "Could not verify user creation signature"),
               db)

/-- The body of `create_phrase` (proof.rs:37-83), after the `NonceGuard`
has run: verify the decompressed fold proof at step count 2, read public
outputs 1 and 2 as `(phrase_hash, auth_hash)` (indexing panics when the
vector is shorter), `unwrap` the user lookup, then persist a degree-1 proof
with no preceding id and empty proceeding list. -/
def create_phrase_body (v : Verifier) (db : DB) (request : NewPhraseRequest) :
    Response × DB :=
  let decompressed_proof := v.decompress_proof request.proof
  match v.verify_nova_proof decompressed_proof 2 with
  | none => (.proofInvalid, db)
  | some res =>
      match res.get? 1, res.get? 2 with
      | some phrase_hash, some auth_hash =>
          match get_user db request.username with
          | none => (.crashed, db)
          | some user =>
              let proof_doc : DegreeProof :=
                { id := 0, phrase_hash := phrase_hash, auth_hash := auth_hash,
                  user := user.id, degree := 1, proof := request.proof,
                  preceding := none, proceeding := [] }
              match add_proof db user.id proof_doc with
              | some db2 => (.created "", db2)
              | none => (.notImplemented, db)
      | _, _ => (.crashed, db)

/-- The full `create_phrase` route (proof.rs:32-83): the `NonceGuard`
request guard runs first; only on successful authentication does the
handler body run, over the state with the nonce already consumed. -/
def create_phrase (v : Verifier) (db : DB) (cred : Credential)
    (request : NewPhraseRequest) : Response × DB :=
  match authenticate db cred with
  | (.error e, db1) => (.unauthorized e, db1)
  | (.ok _, db1) => create_phrase_body v db1 request

/-- Route `degree_proof` (proof.rs:101-153): the `/phrase/continue` handler.  Note
its signature carries no request guard — the function is a direct map from
request and state to outcome, with no credential among its inputs.  Verify
at step count `degree * 2`, read outputs 1 and 2, `unwrap` the user lookup
and the `ObjectId` parse of `previous` (each `crashed` on failure), then
persist the proof; a store error maps to `NotImplemented` (501). -/
def degree_proof (v : Verifier) (db : DB) (request : DegreeProofRequest) :
    Response × DB :=
  let decompressed_proof := v.decompress_proof request.proof
  match v.verify_nova_proof decompressed_proof (request.degree * 2) with
  | none => (.proofInvalid, db)
  | some res =>
      match res.get? 1, res.get? 2 with
      | some phrase_hash, some auth_hash =>
          match get_user db request.username with
          | none => (.crashed, db)
          | some user =>
              match object_id_from_str request.previous with
              | none => (.crashed, db)
              | some prev =>
                  let proof_doc : DegreeProof :=
                    { id := 0, phrase_hash := phrase_hash,
                      auth_hash := auth_hash, user := user.id,
                      degree := request.degree, proof := request.proof,
                      preceding := some prev, proceeding := [] }
                  match add_proof db user.id proof_doc with
                  | some db2 => (.created "", db2)
                  | none => (.notImplemented, db)
      | _, _ => (.crashed, db)

/-- Route `add_relationship` (user.rs:152-197), given the username produced by the
`AuthenticatedUser` guard: reject a self-edge, `unwrap` the sender lookup,
fail `NotFound` for an unknown recipient, otherwise create the edge. -/
def add_relationship (db : DB) (user : String)
    (request : NewRelationshipRequest) : Response × DB :=
  if user == request.to_user then
    (.badRequest .relationshipSenderIsTarget, db)
  else
    match get_user db user with
    | none => (.crashed, db)
    | some sender =>
        match get_user db request.to_user with
        | none => (.notFound "Recipient does not exist.", db)
        | some recipient =>
            let relationship_doc : Relationship :=
              { id := 0, sender := sender.id, recipient := recipient.id,
                ephemeral_key := request.ephemeral_key,
                ciphertext := request.ciphertext }
            (.created "", db_add_relationship db relationship_doc)

/-- Route `get_proof_with_params` (proof.rs:196-207): `unwrap` the `ObjectId`
parse of the path segment (`crashed` when it is not a valid OID), then
return the proving data or `NotFound`. -/
def get_proof_with_params (db : DB) (oid : OidString) (username : String) :
    Response :=
  match object_id_from_str oid with
  | none => .crashed
  | some o =>
      match get_proof_and_data db username o with
      | some _ => .created ""
      | none => .notFound ""

/-! ## Concrete instances of the opaque capabilities, and a small state

These instantiate the capability parameters for evaluation: a verifier that
accepts everything (outputs `[steps, 7, 9]`), one that rejects everything,
and a toy signature scheme.  The state holds two registered users and one
origin proof owned by the first. -/

/-- A verifier accepting every proof, with public outputs `[steps, 7, 9]`. -/
def okVerifier : Verifier :=
  { decompress_proof := fun bytes => bytes,
    verify_nova_proof := fun _ steps => some [steps, 7, 9] }

/-- A verifier rejecting every proof. -/
def noVerifier : Verifier :=
  { decompress_proof := fun bytes => bytes,
    verify_nova_proof := fun _ _ => none }

/-- A toy signature scheme: decompression succeeds on nonempty byte
strings, and a signature is valid when it equals pubkey + message. -/
def toyCrypto : Crypto :=
  { decompress_point := fun b => b.head?,
    decompress_signature := fun b => b.head?,
    verify := fun pk sig msg => sig == pk + msg,
    convert_username_to_fr := fun s => s.length }

/-- Registered user "alice", nonce 5, owner of the origin proof. -/
def alice : User :=
  { id := 0, username := "alice", pubkey := [1], nonce := 5,
    relationships := [], degree_proofs := [2] }

/-- Registered user "bob", nonce 3. -/
def bob : User :=
  { id := 1, username := "bob", pubkey := [2], nonce := 3,
    relationships := [], degree_proofs := [] }

/-- Alice's degree-1 origin proof on phrase hash 7. -/
def aliceProof : DegreeProof :=
  { id := 2, phrase_hash := 7, auth_hash := 9, user := 0, degree := 1,
    proof := [1], preceding := none, proceeding := [] }

/-- The sample state: alice, bob, alice's origin proof, next fresh id 3. -/
def db0 : DB :=
  { users := [alice, bob], proofs := [aliceProof], relationships := [],
    nextId := 3 }

/-- Bob's extension request from alice's proof, degree 2. -/
def extendReq : DegreeProofRequest :=
  { username := "bob", proof := [1], previous := .valid 2, degree := 2 }

/-- An extension request naming an unregistered user. -/
def ghostReq : DegreeProofRequest :=
  { username := "ghost", proof := [1], previous := .valid 2, degree := 2 }

/-- An extension request whose previous-proof id resolves to nothing. -/
def danglingReq : DegreeProofRequest :=
  { username := "bob", proof := [1], previous := .valid 99, degree := 2 }

/-- Alice's origin-phrase request. -/
def phraseReq : NewPhraseRequest := { username := "alice", proof := [1] }

/-- A valid registration request for a fresh user "carol" under
`toyCrypto`: point 4, signature 9 = 4 + length "carol". -/
def carolReq : CreateUserRequest :=
  { username := "carol", pubkey := [4], signature_bytes := [9] }

/-- A registration request whose pubkey bytes decompress to no point under
`toyCrypto` (empty byte string). -/
def badPointReq : CreateUserRequest :=
  { username := "dave", pubkey := [], signature_bytes := [9] }

/-- A relationship request from the authenticated sender to "bob". -/
def relReq : NewRelationshipRequest :=
  { to_user := "bob", ephemeral_key := [11], ciphertext := [12] }

/-! ## Helper lemmas -/

/-- Mapping a list by a function that cannot change the predicate's verdict
commutes with `find?`. -/
theorem find?_map_of_pred {α : Type} (f : α → α) (p : α → Bool) (l : List α)
    (hf : ∀ x, p (f x) = p x) :
    (l.map f).find? p = (l.find? p).map f := by
  induction l with
  | nil => rfl
  | cons a t ih =>
      cases h : p a with
      | true =>
          rw [List.map_cons, List.find?_cons_of_pos _ ((hf a).trans h),
              List.find?_cons_of_pos _ h, Option.map_some']
      | false =>
          rw [List.map_cons, List.find?_cons_of_neg _ (by simp [hf a, h]),
              List.find?_cons_of_neg _ (by simp [h]), ih]

/-- Looking a user up after mapping the user list by a username-preserving
function finds the image of the original record. -/
theorem get_user_map_users (db : DB) (f : User → User) (name : String)
    (hf : ∀ x, ((f x).username == name) = (x.username == name)) :
    get_user { db with users := db.users.map f } name
      = (get_user db name).map f := by
  unfold get_user
  exact find?_map_of_pred f _ db.users hf

/-- Unfolding `authenticate` at a well-formed credential whose username
resolves. -/
theorem authenticate_found (db : DB) (name : String) (s : Nat) (u : User)
    (h : get_user db name = some u) :
    authenticate db (.wellFormed name s)
      = if s = u.nonce
        then (.ok u,
              { db with users := db.users.map (fun w =>
                  if w.username == name then { w with nonce := w.nonce + 1 }
                  else w) })
        else (.error (.nonceMismatch u.nonce s), db) := by
  simp only [authenticate, h]

/-- Running `create_user` when validation passes but the signature does not
verify. -/
theorem create_user_sig_fail (crypto : Crypto) (db : DB)
    (request : CreateUserRequest) (pk sg : Nat)
    (hlen : request.username.utf8ByteSize ≤ MAX_USERNAME_CHARS)
    (hascii : is_ascii request.username = true)
    (hpt : crypto.decompress_point request.pubkey = some pk)
    (hsg : crypto.decompress_signature request.signature_bytes = some sg)
    (hv : crypto.verify pk sg
        (crypto.convert_username_to_fr request.username) = false) :
    create_user crypto db request
      = (.badRequest (.signatureErr "Could not verify user creation signature"),
         db) := by
  unfold create_user
  rw [if_neg (Nat.not_lt.mpr hlen), if_neg (by rw [hascii]; decide)]
  simp [hpt, hsg, hv]

/-- Running `create_user` when both the username and the public key are
taken. -/
theorem create_user_conflict_both (crypto : Crypto) (db : DB)
    (request : CreateUserRequest) (pk sg : Nat)
    (hlen : request.username.utf8ByteSize ≤ MAX_USERNAME_CHARS)
    (hascii : is_ascii request.username = true)
    (hpt : crypto.decompress_point request.pubkey = some pk)
    (hsg : crypto.decompress_signature request.signature_bytes = some sg)
    (hv : crypto.verify pk sg
        (crypto.convert_username_to_fr request.username) = true)
    (hch : check_creation_params db request.username request.pubkey
        = (true, true)) :
    create_user crypto db request
      = (.conflict (.userExists request.username), db) := by
  unfold create_user
  rw [if_neg (Nat.not_lt.mpr hlen), if_neg (by rw [hascii]; decide)]
  simp [hpt, hsg, hv, hch]

/-- Running `create_user` when only the username is taken. -/
theorem create_user_conflict_username (crypto : Crypto) (db : DB)
    (request : CreateUserRequest) (pk sg : Nat)
    (hlen : request.username.utf8ByteSize ≤ MAX_USERNAME_CHARS)
    (hascii : is_ascii request.username = true)
    (hpt : crypto.decompress_point request.pubkey = some pk)
    (hsg : crypto.decompress_signature request.signature_bytes = some sg)
    (hv : crypto.verify pk sg
        (crypto.convert_username_to_fr request.username) = true)
    (hch : check_creation_params db request.username request.pubkey
        = (true, false)) :
    create_user crypto db request
      = (.conflict (.usernameExists request.username), db) := by
  unfold create_user
  rw [if_neg (Nat.not_lt.mpr hlen), if_neg (by rw [hascii]; decide)]
  simp [hpt, hsg, hv, hch]

/-- Running `create_user` when only the public key is taken. -/
theorem create_user_conflict_pubkey (crypto : Crypto) (db : DB)
    (request : CreateUserRequest) (pk sg : Nat)
    (hlen : request.username.utf8ByteSize ≤ MAX_USERNAME_CHARS)
    (hascii : is_ascii request.username = true)
    (hpt : crypto.decompress_point request.pubkey = some pk)
    (hsg : crypto.decompress_signature request.signature_bytes = some sg)
    (hv : crypto.verify pk sg
        (crypto.convert_username_to_fr request.username) = true)
    (hch : check_creation_params db request.username request.pubkey
        = (false, true)) :
    create_user crypto db request
      = (.conflict (.pubkeyExists request.pubkey), db) := by
  unfold create_user
  rw [if_neg (Nat.not_lt.mpr hlen), if_neg (by rw [hascii]; decide)]
  simp [hpt, hsg, hv, hch]

/-- Running `create_user` when every check passes: the new identity is
persisted. -/
theorem create_user_success (crypto : Crypto) (db : DB)
    (request : CreateUserRequest) (pk sg : Nat)
    (hlen : request.username.utf8ByteSize ≤ MAX_USERNAME_CHARS)
    (hascii : is_ascii request.username = true)
    (hpt : crypto.decompress_point request.pubkey = some pk)
    (hsg : crypto.decompress_signature request.signature_bytes = some sg)
    (hv : crypto.verify pk sg
        (crypto.convert_username_to_fr request.username) = true)
    (hch : check_creation_params db request.username request.pubkey
        = (false, false)) :
    create_user crypto db request
      = (.created "User succefully created",
         db_create_user db
           { id := 0, nonce := 0, username := request.username,
             pubkey := request.pubkey, relationships := [],
             degree_proofs := [] }) := by
  unfold create_user
  rw [if_neg (Nat.not_lt.mpr hlen), if_neg (by rw [hascii]; decide)]
  simp [hpt, hsg, hv, hch]

/-! ## Claim theorems -/

/-- C1: refuted as stated — the `/phrase/continue` handler `degree_proof`
(proof.rs:102) carries no `NonceGuard`: it is a function of the request and
state alone, with no credential among its inputs.  Run on the sample state,
it commits a state mutation (a new proof is persisted) while every stored
nonce is left exactly as it was and no nonce check of any kind occurred, so
a state change happens without the replay-protected nonce check the claim
(and the handler's own doc comment, proof.rs:97) requires. -/
theorem degree_proof_mutates_without_nonce_check :
    (degree_proof okVerifier db0 extendReq).1 = .created ""
    ∧ (degree_proof okVerifier db0 extendReq).2.proofs.length
        = db0.proofs.length + 1
    ∧ (degree_proof okVerifier db0 extendReq).2.users.map User.nonce
        = db0.users.map User.nonce := by
  refine ⟨rfl, rfl, rfl⟩

/-- C3: refuted as stated — chain replacement is unimplemented (the `@TODO`
at proof.rs:135).  Submitting the same valid degree-2 extension twice
succeeds twice, after which bob holds two live proofs for the same
`(user, phrase_hash)` pair, and the origin proof's proceeding list retains
both children — nothing is detached or re-linked. -/
theorem duplicate_live_degree_proofs :
    (degree_proof okVerifier db0 extendReq).1 = .created ""
    ∧ (degree_proof okVerifier
          (degree_proof okVerifier db0 extendReq).2 extendReq).1 = .created ""
    ∧ ((degree_proof okVerifier
          (degree_proof okVerifier db0 extendReq).2 extendReq).2.proofs.filter
            (fun p => p.user == bob.id && p.phrase_hash == 7)).length = 2
    ∧ (find_proof (degree_proof okVerifier
          (degree_proof okVerifier db0 extendReq).2 extendReq).2 2).map
        DegreeProof.proceeding = some [3, 4] := by
  refine ⟨rfl, rfl, rfl, rfl⟩

/-- C5: refuted as stated — on an unknown user, `degree_proof` unwraps the
`None` from the user lookup (proof.rs:134) and panics instead of returning
a NotFound outcome; and a well-formed preceding id that resolves to no
stored proof surfaces as the store error mapped to 501 NotImplemented
(proof.rs:151), not as a 404 PrecedingNotFound.  In both cases no state is
committed. -/
theorem degree_proof_unknown_user_crash :
    degree_proof okVerifier db0 ghostReq = (.crashed, db0)
    ∧ degree_proof okVerifier db0 danglingReq = (.notImplemented, db0) := by
  refine ⟨rfl, rfl⟩

/-- C2: confirmed — for an identity stored with nonce `n`, authenticating
with credential nonce `n` succeeds and advances the stored nonce to `n+1`;
the same credential replayed then fails with
`NonceMismatch(expected = n+1, received = n)` and no state change; and a
supplied nonce different from the stored one never succeeds and never
changes state — strict equality, never greater-or-equal. -/
theorem nonce_auth_strict (db : DB) (u : User)
    (h : get_user db u.username = some u) :
    (∃ db1,
      authenticate db (.wellFormed u.username u.nonce) = (.ok u, db1)
      ∧ get_user db1 u.username = some { u with nonce := u.nonce + 1 }
      ∧ authenticate db1 (.wellFormed u.username u.nonce)
          = (.error (.nonceMismatch (u.nonce + 1) u.nonce), db1))
    ∧ ∀ m, m ≠ u.nonce →
        authenticate db (.wellFormed u.username m)
          = (.error (.nonceMismatch u.nonce m), db) := by
  have hpf : ∀ x : User,
      (((fun w : User =>
          if w.username == u.username then { w with nonce := w.nonce + 1 }
          else w) x).username == u.username) = (x.username == u.username) := by
    intro x
    by_cases hx : x.username = u.username <;> simp [hx]
  have hget : get_user
      { db with users := db.users.map (fun w =>
          if w.username == u.username then { w with nonce := w.nonce + 1 }
          else w) } u.username = some { u with nonce := u.nonce + 1 } := by
    rw [get_user_map_users db _ u.username hpf, h]
    simp
  refine ⟨⟨_, ?_, hget, ?_⟩, ?_⟩
  · rw [authenticate_found db u.username u.nonce u h, if_pos rfl]
  · rw [authenticate_found _ u.username u.nonce { u with nonce := u.nonce + 1 }
        hget, if_neg (show ¬u.nonce = u.nonce + 1 by omega)]
  · intro m hm
    rw [authenticate_found db u.username m u h, if_neg hm]

/-- C4: confirmed — `degree_proof` succeeds only when the submitted folded
proof verifies at step count `2 × degree`, and in that case the persisted
DegreeProof carries exactly the verifier's public outputs at slots 1 and 2
as its `(phrase_hash, auth_hash)` (they are read off the verified output
vector, never taken from the request); a verification failure yields the
bare 400 (`ProofInvalid`) with no state change. -/
theorem degree_proof_verification_gate (v : Verifier) (db : DB)
    (request : DegreeProofRequest) :
    (v.verify_nova_proof (v.decompress_proof request.proof)
        (request.degree * 2) = none →
      degree_proof v db request = (.proofInvalid, db))
    ∧ ∀ out db2, degree_proof v db request = (out, db2) →
        out = .created "" →
        ∃ res phrase_hash auth_hash,
          v.verify_nova_proof (v.decompress_proof request.proof)
              (request.degree * 2) = some res
          ∧ res.get? 1 = some phrase_hash
          ∧ res.get? 2 = some auth_hash
          ∧ ∃ doc, db2.proofs.getLast? = some doc
              ∧ doc.phrase_hash = phrase_hash
              ∧ doc.auth_hash = auth_hash
              ∧ doc.degree = request.degree
              ∧ doc.proof = request.proof := by
  constructor
  · intro hnone
    simp only [degree_proof, hnone]
  · intro out db2 hrun hc
    simp only [degree_proof] at hrun
    split at hrun
    · injection hrun with h1 h2; subst h1; simp at hc
    next res hres =>
      split at hrun
      next phrase_hash auth_hash h1 h2 =>
        split at hrun
        · injection hrun with h1' h2'; subst h1'; simp at hc
        next user huser =>
          split at hrun
          · injection hrun with h1' h2'; subst h1'; simp at hc
          next prev hprev =>
            split at hrun
            next db3 hadd =>
              injection hrun with h1' h2'
              subst h2'
              refine ⟨res, phrase_hash, auth_hash, hres, h1, h2, ?_⟩
              simp only [add_proof] at hadd
              split at hadd
              next hfound =>
                injection hadd with h3
                subst h3
                refine ⟨{ id := db.nextId, phrase_hash := phrase_hash,
                          auth_hash := auth_hash, user := user.id,
                          degree := request.degree, proof := request.proof,
                          preceding := some prev, proceeding := [] },
                        ?_, rfl, rfl, rfl, rfl⟩
                simp only [insert_proof]
                exact List.getLast?_concat _
              · exact absurd hadd (by simp)
            · injection hrun with h1' h2'; subst h1'; simp at hc
      next h1 h2 =>
        injection hrun with h1' h2'; subst h1'; simp at hc

/-- C4 witness: on the rejecting verifier instance, `degree_proof` returns
the bare 400 with the state untouched. -/
theorem degree_proof_verification_gate_witness :
    degree_proof noVerifier db0 extendReq = (.proofInvalid, db0) :=
  (degree_proof_verification_gate noVerifier db0 extendReq).1 rfl

/-- C8: confirmed — `create_phrase` admits a proof only when it verifies at
step count 2, reading public outputs 1 and 2 as `(phrase_hash, auth_hash)`,
and every DegreeProof it persists has degree 1, no preceding id, and an
empty proceeding list; a verification failure yields the bare 400 over the
post-guard state. -/
theorem create_phrase_origin_admission (v : Verifier) (db : DB)
    (cred : Credential) (request : NewPhraseRequest) :
    (∀ u db1, authenticate db cred = (.ok u, db1) →
      v.verify_nova_proof (v.decompress_proof request.proof) 2 = none →
      create_phrase v db cred request = (.proofInvalid, db1))
    ∧ ∀ out db2, create_phrase v db cred request = (out, db2) →
        out = .created "" →
        ∃ res phrase_hash auth_hash,
          v.verify_nova_proof (v.decompress_proof request.proof) 2 = some res
          ∧ res.get? 1 = some phrase_hash
          ∧ res.get? 2 = some auth_hash
          ∧ ∃ doc, db2.proofs.getLast? = some doc
              ∧ doc.degree = 1
              ∧ doc.preceding = none
              ∧ doc.proceeding = []
              ∧ doc.phrase_hash = phrase_hash
              ∧ doc.auth_hash = auth_hash := by
  constructor
  · intro u db1 hauth hnone
    simp only [create_phrase, hauth, create_phrase_body, hnone]
  · intro out db2 hrun hc
    simp only [create_phrase] at hrun
    split at hrun
    · injection hrun with h1 h2; subst h1; simp at hc
    next u db1 hauth =>
      simp only [create_phrase_body] at hrun
      split at hrun
      · injection hrun with h1 h2; subst h1; simp at hc
      next res hres =>
        split at hrun
        next phrase_hash auth_hash h1 h2 =>
          split at hrun
          · injection hrun with h1' h2'; subst h1'; simp at hc
          next user huser =>
            split at hrun
            next db3 hadd =>
              injection hrun with h1' h2'
              subst h2'
              refine ⟨res, phrase_hash, auth_hash, hres, h1, h2, ?_⟩
              simp only [add_proof] at hadd
              injection hadd with h3
              subst h3
              refine ⟨{ id := db1.nextId, phrase_hash := phrase_hash,
                        auth_hash := auth_hash, user := user.id, degree := 1,
                        proof := request.proof, preceding := none,
                        proceeding := [] },
                      ?_, rfl, rfl, rfl, rfl, rfl⟩
              simp only [insert_proof]
              exact List.getLast?_concat _
            · injection hrun with h1' h2'; subst h1'; simp at hc
        next h1 h2 =>
          injection hrun with h1' h2'; subst h1'; simp at hc

/-- C8 witness: with the nonce consumed and the rejecting verifier,
`create_phrase` returns the bare 400 over the post-guard state. -/
theorem create_phrase_origin_admission_witness :
    create_phrase noVerifier db0 (.wellFormed "alice" 5) phraseReq
      = (.proofInvalid, (authenticate db0 (.wellFormed "alice" 5)).2) :=
  (create_phrase_origin_admission noVerifier db0 (.wellFormed "alice" 5)
      phraseReq).1 alice (authenticate db0 (.wellFormed "alice" 5)).2
    rfl rfl

/-- C6: confirmed — `create_user` fails `UsernameTooLong` when the username
exceeds 30 bytes, `UsernameNotAscii` when it is not pure ASCII, and (once
both decompressions succeed) fails with the signature error exactly when
the signature does not verify over the canonical field encoding of the
username under the supplied key; on success it persists an identity with
nonce 0 and empty relationship and proof lists.  Failures commit no
state. -/
theorem create_user_validation (crypto : Crypto) (db : DB)
    (request : CreateUserRequest) :
    (request.username.utf8ByteSize > MAX_USERNAME_CHARS →
      create_user crypto db request
        = (.badRequest (.usernameTooLong request.username), db))
    ∧ (request.username.utf8ByteSize ≤ MAX_USERNAME_CHARS →
        is_ascii request.username = false →
        create_user crypto db request
          = (.badRequest (.usernameNotAscii request.username), db))
    ∧ (∀ pk sg, request.username.utf8ByteSize ≤ MAX_USERNAME_CHARS →
        is_ascii request.username = true →
        crypto.decompress_point request.pubkey = some pk →
        crypto.decompress_signature request.signature_bytes = some sg →
        (create_user crypto db request
            = (.badRequest
                (.signatureErr "Could not verify user creation signature"), db)
          ↔ crypto.verify pk sg
              (crypto.convert_username_to_fr request.username) = false))
    ∧ (∀ pk sg, request.username.utf8ByteSize ≤ MAX_USERNAME_CHARS →
        is_ascii request.username = true →
        crypto.decompress_point request.pubkey = some pk →
        crypto.decompress_signature request.signature_bytes = some sg →
        crypto.verify pk sg
            (crypto.convert_username_to_fr request.username) = true →
        check_creation_params db request.username request.pubkey
            = (false, false) →
        create_user crypto db request
          = (.created "User succefully created",
             db_create_user db
               { id := 0, nonce := 0, username := request.username,
                 pubkey := request.pubkey, relationships := [],
                 degree_proofs := [] })) := by
  refine ⟨?_, ?_, ?_, ?_⟩
  · intro h
    unfold create_user
    rw [if_pos h]
  · intro hlen hascii
    unfold create_user
    rw [if_neg (Nat.not_lt.mpr hlen), if_pos (by rw [hascii]; rfl)]
  · intro pk sg hlen hascii hpt hsg
    constructor
    · intro hbad
      cases hvb : crypto.verify pk sg
          (crypto.convert_username_to_fr request.username) with
      | false => rfl
      | true =>
          exfalso
          rcases hch : check_creation_params db request.username request.pubkey
            with ⟨b1, b2⟩
          cases b1 <;> cases b2
          · rw [create_user_success crypto db request pk sg hlen hascii hpt hsg
                hvb hch] at hbad
            simp at hbad
          · rw [create_user_conflict_pubkey crypto db request pk sg hlen hascii
                hpt hsg hvb hch] at hbad
            simp at hbad
          · rw [create_user_conflict_username crypto db request pk sg hlen
                hascii hpt hsg hvb hch] at hbad
            simp at hbad
          · rw [create_user_conflict_both crypto db request pk sg hlen hascii
                hpt hsg hvb hch] at hbad
            simp at hbad
    · exact create_user_sig_fail crypto db request pk sg hlen hascii hpt hsg
  · intro pk sg hlen hascii hpt hsg hv hch
    exact create_user_success crypto db request pk sg hlen hascii hpt hsg hv hch

/-- C6 witness: registering the fresh user "carol" with a valid toy
signature succeeds and persists nonce 0 with empty lists. -/
theorem create_user_validation_witness :
    create_user toyCrypto db0 carolReq
      = (.created "User succefully created",
         db_create_user db0
           { id := 0, nonce := 0, username := carolReq.username,
             pubkey := carolReq.pubkey, relationships := [],
             degree_proofs := [] }) :=
  (create_user_validation toyCrypto db0 carolReq).2.2.2 4 9 (by decide)
    (by decide) rfl rfl rfl (by decide)

/-- C7: confirmed — registration conflicts are a three-way dispatch that is
never collapsed: both taken yields the combined conflict, username-only
yields the username conflict, pubkey-only yields the pubkey conflict (all
distinct outcomes, no state change); and after one successful registration
of `(username, pubkey)`, any valid second attempt sharing the username
and/or the pubkey lands in the corresponding conflict, so at most one
registration per pair can succeed. -/
theorem registration_uniqueness (crypto : Crypto) (db : DB)
    (request : CreateUserRequest) (pk sg : Nat)
    (hlen : request.username.utf8ByteSize ≤ MAX_USERNAME_CHARS)
    (hascii : is_ascii request.username = true)
    (hpt : crypto.decompress_point request.pubkey = some pk)
    (hsg : crypto.decompress_signature request.signature_bytes = some sg)
    (hv : crypto.verify pk sg
        (crypto.convert_username_to_fr request.username) = true) :
    (check_creation_params db request.username request.pubkey = (true, true) →
      create_user crypto db request
        = (.conflict (.userExists request.username), db))
    ∧ (check_creation_params db request.username request.pubkey
          = (true, false) →
        create_user crypto db request
          = (.conflict (.usernameExists request.username), db))
    ∧ (check_creation_params db request.username request.pubkey
          = (false, true) →
        create_user crypto db request
          = (.conflict (.pubkeyExists request.pubkey), db))
    ∧ (∀ (s t : String) (l : List Nat),
        GrapevineServerError.userExists s ≠ .usernameExists t
        ∧ GrapevineServerError.userExists s ≠ .pubkeyExists l
        ∧ GrapevineServerError.usernameExists t ≠ .pubkeyExists l)
    ∧ (check_creation_params db request.username request.pubkey
          = (false, false) →
        ∀ (request2 : CreateUserRequest) (pk2 sg2 : Nat),
          request2.username.utf8ByteSize ≤ MAX_USERNAME_CHARS →
          is_ascii request2.username = true →
          crypto.decompress_point request2.pubkey = some pk2 →
          crypto.decompress_signature request2.signature_bytes = some sg2 →
          crypto.verify pk2 sg2
              (crypto.convert_username_to_fr request2.username) = true →
          ((request2.username = request.username ∧
              request2.pubkey = request.pubkey →
            create_user crypto (create_user crypto db request).2 request2
              = (.conflict (.userExists request2.username),
                 (create_user crypto db request).2))
           ∧ (request2.username = request.username →
                db.users.any (fun u => u.pubkey == request2.pubkey) = false →
                request2.pubkey ≠ request.pubkey →
              create_user crypto (create_user crypto db request).2 request2
                = (.conflict (.usernameExists request2.username),
                   (create_user crypto db request).2))
           ∧ (request2.pubkey = request.pubkey →
                db.users.any (fun u => u.username == request2.username)
                    = false →
                request2.username ≠ request.username →
              create_user crypto (create_user crypto db request).2 request2
                = (.conflict (.pubkeyExists request2.pubkey),
                   (create_user crypto db request).2)))) := by
  refine ⟨?_, ?_, ?_, ?_, ?_⟩
  · exact create_user_conflict_both crypto db request pk sg hlen hascii hpt
      hsg hv
  · exact create_user_conflict_username crypto db request pk sg hlen hascii
      hpt hsg hv
  · exact create_user_conflict_pubkey crypto db request pk sg hlen hascii hpt
      hsg hv
  · intro s t l
    refine ⟨?_, ?_, ?_⟩ <;> intro h <;> cases h
  · intro hfresh request2 pk2 sg2 hlen2 hascii2 hpt2 hsg2 hv2
    have hsucc := create_user_success crypto db request pk sg hlen hascii hpt
      hsg hv hfresh
    refine ⟨?_, ?_, ?_⟩
    · rintro ⟨h1, h2⟩
      have hch2 : check_creation_params
          (db_create_user db
            { id := 0, nonce := 0, username := request.username,
              pubkey := request.pubkey, relationships := [],
              degree_proofs := [] })
          request2.username request2.pubkey = (true, true) := by
        simp [check_creation_params, db_create_user, List.any_append, h1, h2]
      rw [hsucc]
      exact create_user_conflict_both crypto _ request2 pk2 sg2 hlen2 hascii2
        hpt2 hsg2 hv2 hch2
    · intro h1 hpkfree hpkne
      have hch2 : check_creation_params
          (db_create_user db
            { id := 0, nonce := 0, username := request.username,
              pubkey := request.pubkey, relationships := [],
              degree_proofs := [] })
          request2.username request2.pubkey = (true, false) := by
        simp [check_creation_params, db_create_user, List.any_append, h1,
          hpkfree, beq_eq_false_iff_ne.mpr (Ne.symm hpkne)]
      rw [hsucc]
      exact create_user_conflict_username crypto _ request2 pk2 sg2 hlen2
        hascii2 hpt2 hsg2 hv2 hch2
    · intro h2 hnamefree hnamene
      have hch2 : check_creation_params
          (db_create_user db
            { id := 0, nonce := 0, username := request.username,
              pubkey := request.pubkey, relationships := [],
              degree_proofs := [] })
          request2.username request2.pubkey = (false, true) := by
        simp [check_creation_params, db_create_user, List.any_append, h2,
          hnamefree, beq_eq_false_iff_ne.mpr (Ne.symm hnamene)]
      rw [hsucc]
      exact create_user_conflict_pubkey crypto _ request2 pk2 sg2 hlen2
        hascii2 hpt2 hsg2 hv2 hch2

/-- C7 witness: registering "carol" succeeds once; repeating the identical
request lands in the combined conflict. -/
theorem registration_uniqueness_witness :
    create_user toyCrypto (create_user toyCrypto db0 carolReq).2 carolReq
      = (.conflict (.userExists carolReq.username),
         (create_user toyCrypto db0 carolReq).2) :=
  (((registration_uniqueness toyCrypto db0 carolReq 4 9 (by decide)
      (by decide) rfl rfl rfl).2.2.2.2 (by decide) carolReq 4 9 (by decide)
      (by decide) rfl rfl rfl).1) ⟨rfl, rfl⟩

/-- C9: confirmed — `add_relationship` fails with the sender-is-recipient
validation error when the authenticated sender names themself, fails
NotFound when the recipient is unknown (no edge created, no state change in
either failure), and otherwise persists the edge and appends its id to both
the sender's and the recipient's relationship lists. -/
theorem add_relationship_behavior (db : DB) (user : String)
    (request : NewRelationshipRequest) :
    (user = request.to_user →
      add_relationship db user request
        = (.badRequest .relationshipSenderIsTarget, db))
    ∧ (∀ sender, user ≠ request.to_user →
        get_user db user = some sender →
        get_user db request.to_user = none →
        add_relationship db user request
          = (.notFound "Recipient does not exist.", db))
    ∧ (∀ sender recipient, user ≠ request.to_user →
        get_user db user = some sender →
        get_user db request.to_user = some recipient →
        (add_relationship db user request).1 = .created ""
        ∧ (add_relationship db user request).2.relationships.getLast?
            = some { id := db.nextId, sender := sender.id,
                     recipient := recipient.id,
                     ephemeral_key := request.ephemeral_key,
                     ciphertext := request.ciphertext }
        ∧ (∃ s2, get_user (add_relationship db user request).2 user = some s2
            ∧ s2.relationships = sender.relationships ++ [db.nextId])
        ∧ (∃ r2, get_user (add_relationship db user request).2 request.to_user
              = some r2
            ∧ r2.relationships = recipient.relationships ++ [db.nextId])) := by
  refine ⟨?_, ?_, ?_⟩
  · intro h
    unfold add_relationship
    rw [if_pos (by rw [h]; exact beq_self_eq_true _)]
  · intro sender hne hs hrnone
    unfold add_relationship
    rw [if_neg (by simp [hne])]
    simp [hs, hrnone]
  · intro sender recipient hne hs hr
    have hrun : add_relationship db user request
        = (.created "", db_add_relationship db
            { id := 0, sender := sender.id, recipient := recipient.id,
              ephemeral_key := request.ephemeral_key,
              ciphertext := request.ciphertext }) := by
      unfold add_relationship
      rw [if_neg (by simp [hne])]
      simp [hs, hr]
    have hmapS : get_user (db_add_relationship db
        { id := 0, sender := sender.id, recipient := recipient.id,
          ephemeral_key := request.ephemeral_key,
          ciphertext := request.ciphertext }) user
        = (get_user db user).map (fun u =>
            if u.id == sender.id || u.id == recipient.id then
              { u with relationships := u.relationships ++ [db.nextId] }
            else u) := by
      unfold get_user db_add_relationship
      exact find?_map_of_pred _ _ db.users (by
        intro x
        by_cases hx : (x.id == sender.id || x.id == recipient.id) = true <;>
          simp [hx])
    have hmapR : get_user (db_add_relationship db
        { id := 0, sender := sender.id, recipient := recipient.id,
          ephemeral_key := request.ephemeral_key,
          ciphertext := request.ciphertext }) request.to_user
        = (get_user db request.to_user).map (fun u =>
            if u.id == sender.id || u.id == recipient.id then
              { u with relationships := u.relationships ++ [db.nextId] }
            else u) := by
      unfold get_user db_add_relationship
      exact find?_map_of_pred _ _ db.users (by
        intro x
        by_cases hx : (x.id == sender.id || x.id == recipient.id) = true <;>
          simp [hx])
    rw [hs] at hmapS
    rw [hr] at hmapR
    simp only [Option.map_some'] at hmapS hmapR
    rw [hrun]
    refine ⟨rfl, ?_, ?_, ?_⟩
    · simp only [db_add_relationship]
      exact List.getLast?_concat _
    · refine ⟨_, hmapS, ?_⟩
      simp
    · refine ⟨_, hmapR, ?_⟩
      simp

/-- C9 witness: alice (authenticated) adds a relationship to bob in the
sample state; the edge is appended to both relationship lists. -/
theorem add_relationship_behavior_witness :
    "alice" ≠ relReq.to_user
    ∧ get_user db0 "alice" = some alice
    ∧ get_user db0 relReq.to_user = some bob
    ∧ (add_relationship db0 "alice" relReq).1 = .created "" :=
  ⟨by decide, by decide, by decide,
   ((add_relationship_behavior db0 "alice" relReq).2.2 alice bob (by decide)
      (by decide) (by decide)).1⟩

/-- C10: confirmed — for well-typed inputs at the public interface the
handlers panic instead of returning an error response: `create_user`
unwraps the pubkey-point and signature decompressions (user.rs:64-65), so
byte strings that decompress to nothing crash the handler rather than
yielding the InvalidSignature 400; and `get_proof_with_params` unwraps the
`ObjectId` parse (proof.rs:202), so a non-OID path segment crashes rather
than yielding NotFound. -/
theorem handlers_crash_on_malformed_encodings (crypto : Crypto) (db : DB)
    (request : CreateUserRequest) (username : String) :
    (request.username.utf8ByteSize ≤ MAX_USERNAME_CHARS →
      is_ascii request.username = true →
      crypto.decompress_point request.pubkey = none →
      create_user crypto db request = (.crashed, db))
    ∧ (∀ pk, request.username.utf8ByteSize ≤ MAX_USERNAME_CHARS →
        is_ascii request.username = true →
        crypto.decompress_point request.pubkey = some pk →
        crypto.decompress_signature request.signature_bytes = none →
        create_user crypto db request = (.crashed, db))
    ∧ get_proof_with_params db .invalid username = .crashed := by
  refine ⟨?_, ?_, rfl⟩
  · intro hlen hascii hnone
    unfold create_user
    rw [if_neg (Nat.not_lt.mpr hlen), if_neg (by rw [hascii]; decide)]
    simp [hnone]
  · intro pk hlen hascii hpt hnone
    unfold create_user
    rw [if_neg (Nat.not_lt.mpr hlen), if_neg (by rw [hascii]; decide)]
    simp [hpt, hnone]

/-- C10 witness: a registration whose pubkey bytes decompress to no point
crashes the handler. -/
theorem handlers_crash_on_malformed_encodings_witness :
    create_user toyCrypto db0 badPointReq = (.crashed, db0) :=
  (handlers_crash_on_malformed_encodings toyCrypto db0 badPointReq "x").1
    (by decide) (by decide) rfl

/-- C2 witness: alice is stored in the sample state with nonce 5, and
authenticating with nonce 5 succeeds. -/
theorem nonce_auth_strict_witness :
    get_user db0 alice.username = some alice
    ∧ ∃ db1, authenticate db0 (.wellFormed alice.username alice.nonce)
        = (.ok alice, db1) :=
  ⟨by decide, ((nonce_auth_strict db0 alice (by decide)).1).imp
      (fun _ hdb1 => hdb1.1)⟩

end Grapevine
